import Mathlib

/-!
Verification of the Movie-Baba recommender system.

The repository has three near-duplicate application files:
  * `app.py`  — `fetch_poster` (single attempt) and `recommend_movies` (top-5 lookup),
  * `app2.py` — `fetch_poster` and `recommend` (same top-5 lookup),
  * `app3.py` — `fetch_poster_robust_cached` (retries via `urllib3.util.retry.Retry`,
    TTL cache via `st.cache_data`) and `recommend_movies_final` (concurrent poster
    fetching through a thread pool, results reassembled into input order).

This file shallowly embeds the catalog, the similarity lookup, the poster-fetch
outcome handling, the retry configuration, the TTL cache, and the concurrent
batch collection/reordering, and proves or refutes the specification claims.
Similarity scores are modelled as rationals (the concrete scores in play are
decimal fractions and no claim depends on IEEE rounding); network effects are
modelled by explicit outcome values, schedules and call counters.
-/

/-- A catalog row: the `movies` DataFrame has (at least) an `id` column holding
the TMDB identifier and a `title` column (app.py line 8, app3.py line 14). -/
structure Movie where
  id : Nat
  title : String
deriving DecidableEq

/-- Python exceptions relevant to the lookup.  `indexError` models the
`IndexError` raised by `.index[0]` on an empty selection or by out-of-range
positional indexing; `notFound` models the spec's `NotFound` error value,
which lets us state (and refute) that the code produces it. -/
inductive PyError where
  | indexError
  | notFound
deriving DecidableEq

deriving instance DecidableEq for Except

/-- Embeds `movies[movies['title'] == t].index[0]`: position of the first catalog row
whose title equals `t`, scanning from position `k` (app.py line 53,
app2.py line 22, app3.py line 86).  `none` models the `IndexError` case. -/
def titleIndexFrom (t : String) : Nat → List Movie → Option Nat
  | _, [] => none
  | k, m :: ms => if m.title = t then some k else titleIndexFrom t (k + 1) ms

/-- First index of a title in the catalog, or `none` (pandas first-match). -/
def titleIndex (movies : List Movie) (t : String) : Option Nat :=
  titleIndexFrom t 0 movies

/-- Python's `enumerate` over a similarity row, indices starting at `k`. -/
def enumFrom (k : Nat) : List ℚ → List (Nat × ℚ)
  | [] => []
  | x :: xs => (k, x) :: enumFrom (k + 1) xs

/-- Embeds `list(enumerate(row))` (app.py line 55, app2.py line 23, app3.py line 94). -/
def enumerate (l : List ℚ) : List (Nat × ℚ) := enumFrom 0 l

/-- One insertion step of a stable descending sort on the score component:
the inserted element `x` is placed before the first element whose score is
not strictly greater, so among equal scores an element inserted on top of
later elements comes first. -/
def insertDesc (x : Nat × ℚ) : List (Nat × ℚ) → List (Nat × ℚ)
  | [] => [x]
  | y :: ys => if x.2 < y.2 then y :: insertDesc x ys else x :: y :: ys

/-- Stable descending sort by score, modelling Python's
`sorted(pairs, reverse=True, key=lambda x: x[1])` (Timsort is stable, and
`reverse=True` keeps equal-keyed elements in their original order). -/
def sortDesc : List (Nat × ℚ) → List (Nat × ℚ)
  | [] => []
  | x :: xs => insertDesc x (sortDesc xs)

/-- Embeds `sorted(list(enumerate(similarity[index])), reverse=True, key=lambda x: x[1])`
(app2.py line 23, app.py line 55, app3.py line 94). -/
def distancesSorted (row : List ℚ) : List (Nat × ℚ) := sortDesc (enumerate row)

/-- The slice `distances[1:6]` (app2.py line 26, app.py line 55, app3.py
line 94): skip the first sorted entry, keep the next five.  The count 5 is
hard-coded in all three variants. -/
def topSlice (row : List ℚ) : List (Nat × ℚ) := ((distancesSorted row).drop 1).take 5

/-- The loop of `recommend` (app2.py lines 24-29, app.py lines 56-61): for each
`(index, score)` pair fetch the poster for `movies.iloc[index].id` and collect
`movies.iloc[index].title`; positional access out of range raises `IndexError`. -/
def buildRec (movies : List Movie) (fp : Nat → String) :
    List (Nat × ℚ) → Except PyError (List String × List String)
  | [] => .ok ([], [])
  | p :: rest =>
    match movies.get? p.1 with
    | none => .error .indexError
    | some m =>
      match buildRec movies fp rest with
      | .error e => .error e
      | .ok (names, posters) => .ok (m.title :: names, fp m.id :: posters)

/-- Embeds `recommend` (app2.py lines 21-30), identical in logic to `recommend_movies`
(app.py lines 52-62).  `fp` abstracts `fetch_poster` as a map from TMDB id to
the URL string it returns.  The unknown-title case is the uncaught
`IndexError` of `.index[0]`; an out-of-range similarity row access is also an
uncaught `IndexError`. -/
def recommend (movies : List Movie) (sim : List (List ℚ)) (fp : Nat → String)
    (t : String) : Except PyError (List String × List String) :=
  match titleIndex movies t with
  | none => .error .indexError
  | some index =>
    match sim.get? index with
    | some row => buildRec movies fp (topSlice row)
    | none => .error .indexError

/-- Projection of a recommend result on the error tag and the names component
(the posters component is dropped). -/
def namesPart (r : Except PyError (List String × List String)) :
    Except PyError (List String) :=
  Except.map Prod.fst r

/-- Network-effect accounting for `recommend`: every iteration of the loop in
app2.py lines 27-29 (app.py lines 59-60) performs exactly one `fetch_poster`
call, i.e. one outbound HTTP request (posters are not cached in these two
variants), so a successful call issues one request per element of
`distances[1:6]` and a call that dies in the title lookup issues none. -/
def recommendNetworkCalls (movies : List Movie) (sim : List (List ℚ))
    (t : String) : Nat :=
  match titleIndex movies t with
  | none => 0
  | some index =>
    match sim.get? index with
    | some row => (topSlice row).length
    | none => 0

/-- The score 0.1 as an explicit reduced fraction (kernel-computable; the
equations `sc01_eq` … below restate these constants as divisions). -/
def sc01 : ℚ := ⟨1, 10, by decide, by decide⟩

/-- The score 0.2 as an explicit reduced fraction. -/
def sc02 : ℚ := ⟨1, 5, by decide, by decide⟩

/-- The score 0.3 as an explicit reduced fraction. -/
def sc03 : ℚ := ⟨3, 10, by decide, by decide⟩

/-- The score 0.4 as an explicit reduced fraction. -/
def sc04 : ℚ := ⟨2, 5, by decide, by decide⟩

/-- The score 0.5 as an explicit reduced fraction. -/
def sc05 : ℚ := ⟨1, 2, by decide, by decide⟩

/-- The score 0.9 as an explicit reduced fraction. -/
def sc09 : ℚ := ⟨9, 10, by decide, by decide⟩

/-- Concrete catalog for the spec's §8 scenario: six movies A..F. -/
def movies6 : List Movie :=
  [⟨10, "A"⟩, ⟨11, "B"⟩, ⟨12, "C"⟩, ⟨13, "D"⟩, ⟨14, "E"⟩, ⟨15, "F"⟩]

/-- The matrix row for A in the spec's §8 scenario: `[1.0, .9, .2, .9, .5, .1]`. -/
def row6 : List ℚ := [1, sc09, sc02, sc09, sc05, sc01]

/-- Similarity matrix whose row for A is `row6`
(spec §8 scenario; the remaining rows are the mirrored column plus identity). -/
def sim6 : List (List ℚ) :=
  [row6,
   [sc09, 1, 0, 0, 0, 0],
   [sc02, 0, 1, 0, 0, 0],
   [sc09, 0, 0, 1, 0, 0],
   [sc05, 0, 0, 0, 1, 0],
   [sc01, 0, 0, 0, 0, 1]]

/-- A concrete poster-fetch stub: id `n` resolves to `"P" ++ toString n`. -/
def pf6 (i : Nat) : String := "P" ++ toString i

/-- Concrete catalog refuting self-exclusion: seven movies A..G. -/
def movies7 : List Movie :=
  [⟨20, "A"⟩, ⟨21, "B"⟩, ⟨22, "C"⟩, ⟨23, "D"⟩, ⟨24, "E"⟩, ⟨25, "F"⟩, ⟨26, "G"⟩]

/-- A similarity matrix whose row for A has self-similarity 0.5, smaller than
A's similarity 0.9 to B — the spec notes `matrix[i][i]` is "expected to be the
maximum ... not otherwise validated", and no variant validates it. -/
def sim7 : List (List ℚ) :=
  [[sc05, sc09, sc04, sc03, sc02, sc01, 0],
   [sc09, 1, 0, 0, 0, 0, 0],
   [sc04, 0, 1, 0, 0, 0, 0],
   [sc03, 0, 0, 1, 0, 0, 0],
   [sc02, 0, 0, 0, 1, 0, 0],
   [sc01, 0, 0, 0, 0, 1, 0],
   [0, 0, 0, 0, 0, 0, 1]]

/-- Truthiness of the optional `poster_path` field: Python's
`if poster_path:` treats both `None` (JSON null / missing key via
`data.get('poster_path')`) and the empty string as false. -/
def truthy : Option String → Bool
  | none => false
  | some s => !(s = "")

/-- The string `"https://image.tmdb.org/t/p/w500/"`, the fixed image-host part of the
poster URL (app.py line 25, app2.py line 13, app3.py line 56). -/
def image_base_url : String := "https://image.tmdb.org/t/p/w500/"

/-- app3.py line 32: placeholder returned when the API reports no poster. -/
def placeholder_no_poster : String :=
  "https://via.placeholder.com/500x750.png?text=No+Poster+Available"

/-- app3.py line 33: placeholder returned on any fetch failure. -/
def placeholder_error : String :=
  "https://via.placeholder.com/500x750.png?text=Error+Loading+Poster"

/-- Outcome of the single HTTP interaction seen by the body of a poster-fetch
function after the transport layer (including any adapter-level retries) is
done: either a 2xx response whose JSON body carried the optional
`poster_path`, or one of the exceptions the `except` clauses distinguish. -/
inductive FetchOutcome where
  | ok (poster_path : Option String)
  | timeout
  | httpError (status : Nat)
  | requestError
  | jsonError
  | otherError
deriving DecidableEq

/-- Returns `true` on every constructor modelling a raised exception. -/
def isFailureOutcome : FetchOutcome → Bool
  | .ok _ => false
  | _ => true

/-- Embeds `fetch_poster_robust_cached` (app3.py lines 27-79) as a function of the
outcome of its HTTP interaction: a truthy `poster_path` yields
`f"https://image.tmdb.org/t/p/w500/{poster_path}"`, a falsy one yields the
no-poster placeholder, and every `except` arm (Timeout, HTTPError,
RequestException, ValueError, blanket Exception) returns the error
placeholder. -/
def fetch_poster_robust_cached (o : FetchOutcome) : String :=
  match o with
  | .ok pp => if truthy pp then image_base_url ++ pp.getD "" else placeholder_no_poster
  | .timeout => placeholder_error
  | .httpError _ => placeholder_error
  | .requestError => placeholder_error
  | .jsonError => placeholder_error
  | .otherError => placeholder_error

/-- Embeds `fetch_poster` (app.py lines 13-49) as a function of its HTTP outcome:
same shape, with the `No+Image` fallback text (the `fallback_text` parameter
is never overridden by any caller) and the plain `Error` placeholder produced
after all three `except` arms. -/
def fetch_poster (o : FetchOutcome) : String :=
  match o with
  | .ok pp =>
    if truthy pp then image_base_url ++ pp.getD ""
    else "https://via.placeholder.com/500x750.png?text=No+Image"
  | _ => "https://via.placeholder.com/500x750.png?text=Error"

/-- Embeds `status_forcelist=[429, 500, 502, 503, 504]` (app3.py line 40). -/
def status_forcelist : List Nat := [429, 500, 502, 503, 504]

/-- Embeds `Retry(total=3, ...)` (app3.py line 38): the number of retries a request
is allowed *in addition to* the initial attempt (urllib3 semantics). -/
def retry_total : Nat := 3

/-- Embeds `backoff_factor=1` (app3.py line 39). -/
def backoff_factor : Nat := 1

/-- Modelled from the spec / the urllib3 documentation (the `Retry` class is
library code, not part of this repository): before the `n`-th retry urllib3
sleeps `backoff_factor * 2 ** (n - 1)` seconds. -/
def get_backoff_time (n : Nat) : Nat := backoff_factor * 2 ^ (n - 1)

/-- A mocked server response: HTTP status, the optional `poster_path` of the
JSON body, and whether the body parses as JSON at all. -/
structure ServerResp where
  status : Nat
  poster_path : Option String
  valid_json : Bool

/-- What the HTTP adapter hands back to `http_session.get`: the last response,
or the `MaxRetryError` urllib3 raises once the retry budget is exhausted
(surfaced by requests as a `RetryError`, a `RequestException`). -/
inductive HttpResult where
  | resp (r : ServerResp)
  | maxRetryError

/-- The urllib3 retry loop around one `http_session.get` call, modelled from
the spec and the urllib3 documentation (library code, not in this repo):
`server` maps the attempt number (0-based) to the mocked response, `rem` is
the remaining retry budget, `attempt` counts requests already issued.
Returns (total requests issued, backoff delays slept, final result).  A status
in `status_forcelist` consumes a retry (sleeping `get_backoff_time`) until the
budget is exhausted, which raises `MaxRetryError`; any other status is
returned as-is. -/
def retryRun (server : Nat → ServerResp) : Nat → Nat → Nat × List Nat × HttpResult
  | 0, attempt =>
    if (server attempt).status ∈ status_forcelist then (attempt + 1, [], .maxRetryError)
    else (attempt + 1, [], .resp (server attempt))
  | rem + 1, attempt =>
    if (server attempt).status ∈ status_forcelist then
      let rest := retryRun server rem (attempt + 1)
      (rest.1, get_backoff_time (attempt + 1) :: rest.2.1, rest.2.2)
    else (attempt + 1, [], .resp (server attempt))

/-- Embeds `fetch_poster_robust_cached` down to the mocked transport: run the session
`get` with the configured retry strategy, then `raise_for_status` (status ≥
400 raises `HTTPError`), then JSON decoding (`ValueError` on failure), then
the `poster_path` branch — every raised exception is converted to the error
placeholder by the corresponding `except` arm (app3.py lines 36-78). -/
def fetch_poster_net (server : Nat → ServerResp) : String :=
  match (retryRun server retry_total 0).2.2 with
  | .maxRetryError => placeholder_error
  | .resp r =>
    if 400 ≤ r.status then placeholder_error
    else if !r.valid_json then placeholder_error
    else if truthy r.poster_path then image_base_url ++ r.poster_path.getD ""
    else placeholder_no_poster

/-- A mocked endpoint that always answers 503 (spec §8 retry scenario). -/
def server503 : Nat → ServerResp := fun _ => ⟨503, none, true⟩

/-- Number of HTTP requests issued against the always-503 endpoint. -/
def fetchAttempts503 : Nat := (retryRun server503 retry_total 0).1

/-- Backoff delays slept against the always-503 endpoint. -/
def fetchBackoffs503 : List Nat := (retryRun server503 retry_total 0).2.1

/-- State of the poster cache plus a counter of outbound network calls.
Modelled from the spec: the cache itself is provided by the
`@st.cache_data(ttl="6h")` decorator (app3.py line 26), whose implementation
is Streamlit framework code, not part of this repository; the spec describes
it as a process-wide map from external id to (resolved url, fetch timestamp)
with a fixed TTL. -/
structure CacheState where
  entry : Nat → Option (String × Nat)
  networkCalls : Nat

/-- The duration `ttl="6h"` in seconds. -/
def cacheTTL : Nat := 6 * 60 * 60

/-- Cache miss path: perform the network fetch `f`, store the result keyed by
`id` with the current timestamp, and count one network call. -/
def cacheMiss (f : Nat → String) (now id : Nat) (s : CacheState) :
    String × CacheState :=
  (f id,
   ⟨fun j => if j = id then some (f id, now) else s.entry j, s.networkCalls + 1⟩)

/-- Modelled from the spec: one call of the `st.cache_data`-decorated fetch at
time `now` — return the cached URL if an entry for `id` exists and is younger
than the TTL, otherwise fetch over the network and overwrite the entry. -/
def cachedFetch (f : Nat → String) (now id : Nat) (s : CacheState) :
    String × CacheState :=
  match s.entry id with
  | some (url, fetchedAt) =>
    if now - fetchedAt < cacheTTL then (url, s) else cacheMiss f now id s
  | none => cacheMiss f now id s

/-- One entry of `recommended_movies_data_to_fetch` (app3.py lines 100-104):
the TMDB id, the title, and the position `i` it must occupy in the output
(`'original_order': i`). -/
structure MovieInfo where
  tmdb_id : Nat
  title : String
  original_order : Nat
deriving DecidableEq

/-- Attach `original_order` values `k, k+1, …` to a list of (id, title)
pairs: the shape `recommended_movies_data_to_fetch` has when the `enumerate`
loop of app3.py lines 101-104 skips nothing. -/
def withOrdersFrom (k : Nat) : List (Nat × String) → List MovieInfo
  | [] => []
  | x :: xs => ⟨x.1, x.2, k⟩ :: withOrdersFrom (k + 1) xs

/-- A batch input with orders `0, 1, 2, …`. -/
def withOrders (xs : List (Nat × String)) : List MovieInfo := withOrdersFrom 0 xs

/-- Python dict assignment `m[k] = v` on a map modelled as a function. -/
def updateMap (m : Nat → Option String) (k : Nat) (v : String) :
    Nat → Option String :=
  fun j => if j = k then some v else m j

/-- Body of the `as_completed` loop (app3.py lines 134-142): for the completed
future of `info`, store `posters_map[tmdb_id] = future.result()` and
`titles_map[tmdb_id] = title`.  `f` gives the URL each fetch resolves to;
because `fetch_poster_robust_cached` returns a string on every outcome,
`future.result()` never raises and the `except` arm writing
`Error+Processing` is dead. -/
def collectStep (f : Nat → String)
    (maps : (Nat → Option String) × (Nat → Option String)) (info : MovieInfo) :
    (Nat → Option String) × (Nat → Option String) :=
  (updateMap maps.1 info.tmdb_id (f info.tmdb_id),
   updateMap maps.2 info.tmdb_id info.title)

/-- Computes `posters_map` and `titles_map` after draining `as_completed` over the
futures, visited in the completion order given by the list. -/
def collectMaps (f : Nat → String) (completed : List MovieInfo) :
    (Nat → Option String) × (Nat → Option String) :=
  completed.foldl (collectStep f) (fun _ => none, fun _ => none)

/-- The default used by `posters_map.get` when filling `ordered_posters`. -/
def poster_not_found : String :=
  "https://via.placeholder.com/500x750.png?text=Poster+Not+Found"

/-- Reassembly step (app3.py lines 148-152): write
`titles_map.get(tmdb_id, "Title Not Found")` and
`posters_map.get(tmdb_id, …)` into slot `original_order` of the two
`[None] * num_recommendations` lists. -/
def reconStep (pm tm : Nat → Option String)
    (acc : List (Option String) × List (Option String)) (info : MovieInfo) :
    List (Option String) × List (Option String) :=
  (acc.1.set info.original_order (some ((tm info.tmdb_id).getD "Title Not Found")),
   acc.2.set info.original_order (some ((pm info.tmdb_id).getD poster_not_found)))

/-- Embeds the `ordered_titles` / `ordered_posters` reconstruction (app3.py lines
144-152): both start as `[None] * num_recommendations` and each fetched movie
is written into its `original_order` slot. -/
def reconstructLists (toFetch : List MovieInfo) (pm tm : Nat → Option String) :
    List (Option String) × List (Option String) :=
  toFetch.foldl (reconStep pm tm)
    (List.replicate toFetch.length none, List.replicate toFetch.length none)

/-- The poster-fetching batch of `recommend_movies_final` (app3.py lines
117-152): dispatch all ids, drain completions in the arbitrary order `sched`
imposes on the submitted futures, then reassemble into input order.  This is
the `fetch_posters` operation of the spec's §4.2. -/
def fetch_posters (f : Nat → String) (sched : List MovieInfo → List MovieInfo)
    (toFetch : List MovieInfo) :
    List (Option String) × List (Option String) :=
  let maps := collectMaps f (sched toFetch)
  reconstructLists toFetch maps.1 maps.2

/-- The preparation loop of app3.py lines 100-108: enumerate the sorted
`(index, score)` pairs, keep those whose index passes the boundary check
`original_df_index < len(movies)`, and record id, title and the enumeration
position `i` as `original_order`. -/
def buildToFetchFrom (movies : List Movie) : Nat → List (Nat × ℚ) → List MovieInfo
  | _, [] => []
  | i, p :: rest =>
    if h : p.1 < movies.length then
      ⟨(movies.get ⟨p.1, h⟩).id, (movies.get ⟨p.1, h⟩).title, i⟩ ::
        buildToFetchFrom movies (i + 1) rest
    else buildToFetchFrom movies (i + 1) rest

/-- Embeds `recommended_movies_data_to_fetch` (app3.py lines 100-108). -/
def buildToFetch (movies : List Movie) (l : List (Nat × ℚ)) : List MovieInfo :=
  buildToFetchFrom movies 0 l

/-- Embeds `recommend_movies_final` (app3.py lines 84-154): an unknown title is the
`IndexError` of `.index[0]`, caught by the surrounding `try` and turned into
`return [], []`; an out-of-range similarity access (`similarity[movie_index]`,
line 91) is *not* inside that `try` and propagates; an empty fetch list also
returns `([], [])`; otherwise the concurrent batch runs.  `f` abstracts
`fetch_poster_robust_cached`, `sched` the completion order of the futures. -/
def recommend_movies_final (movies : List Movie) (sim : List (List ℚ))
    (f : Nat → String) (sched : List MovieInfo → List MovieInfo) (t : String) :
    Except PyError (List (Option String) × List (Option String)) :=
  match titleIndex movies t with
  | none => .ok ([], [])
  | some movie_index =>
    match sim.get? movie_index with
    | none => .error .indexError
    | some row =>
      let toFetch := buildToFetch movies (topSlice row)
      if toFetch.isEmpty then .ok ([], [])
      else .ok (fetch_posters f sched toFetch)

/-- Default row used to express `movies.iloc[i]` as `getD` once the bound
`i < len(movies)` is known. -/
def defaultMovie : Movie := ⟨0, ""⟩

/-- The cache before any fetch: no entries, no network calls. -/
def emptyCache : CacheState := ⟨fun _ => none, 0⟩

/-- Write the values `vs` into consecutive slots `k, k+1, …` of `l`
(specification helper used to describe the reconstruction fold). -/
def setAll : List (Option String) → Nat → List (Option String) → List (Option String)
  | l, _, [] => l
  | l, k, v :: vs => setAll (l.set k v) (k + 1) vs

/-! ### Library-style lemmas about the embedded operations -/

theorem insertDesc_perm (x : Nat × ℚ) :
    ∀ l : List (Nat × ℚ), List.Perm (insertDesc x l) (x :: l)
  | [] => List.Perm.refl _
  | y :: ys => by
    rw [insertDesc]
    split
    · exact ((insertDesc_perm x ys).cons y).trans (List.Perm.swap x y ys)
    · exact List.Perm.refl _

theorem sortDesc_perm : ∀ l : List (Nat × ℚ), List.Perm (sortDesc l) l
  | [] => List.Perm.refl _
  | x :: xs => (insertDesc_perm x (sortDesc xs)).trans ((sortDesc_perm xs).cons x)

theorem insertDesc_pairwise (x : Nat × ℚ) :
    ∀ l : List (Nat × ℚ), l.Pairwise (fun a b => b.2 ≤ a.2) →
      (insertDesc x l).Pairwise (fun a b => b.2 ≤ a.2)
  | [], _ => by simp [insertDesc]
  | y :: ys, h => by
    rw [insertDesc]
    obtain ⟨hy, hys⟩ := List.pairwise_cons.1 h
    split
    · rename_i hlt
      refine List.pairwise_cons.2 ⟨?_, insertDesc_pairwise x ys hys⟩
      intro z hz
      rcases List.mem_cons.1 ((insertDesc_perm x ys).mem_iff.1 hz) with rfl | hz'
      · exact le_of_lt hlt
      · exact hy z hz'
    · rename_i hge
      refine List.pairwise_cons.2 ⟨?_, h⟩
      intro z hz
      rcases List.mem_cons.1 hz with rfl | hz'
      · exact not_lt.1 hge
      · exact (hy z hz').trans (not_lt.1 hge)

theorem sortDesc_pairwise : ∀ l : List (Nat × ℚ),
    (sortDesc l).Pairwise (fun a b => b.2 ≤ a.2)
  | [] => List.Pairwise.nil
  | x :: xs => insertDesc_pairwise x (sortDesc xs) (sortDesc_pairwise xs)

/-- If `e` is the unique strict maximum of `l` (by score), the stable
descending sort puts it first. -/
theorem sortDesc_eq_cons_of_max (l : List (Nat × ℚ)) (e : Nat × ℚ)
    (he : e ∈ l) (hmax : ∀ p ∈ l, p ≠ e → p.2 < e.2) :
    ∃ t, sortDesc l = e :: t := by
  have hperm := sortDesc_perm l
  have hmem : e ∈ sortDesc l := hperm.mem_iff.2 he
  cases hsd : sortDesc l with
  | nil => rw [hsd] at hmem; cases hmem
  | cons h t =>
    rw [hsd] at hmem
    by_cases heq : h = e
    · exact ⟨t, by rw [heq]⟩
    · have hh : h ∈ l := hperm.mem_iff.1 (by rw [hsd]; exact List.mem_cons_self h t)
      have hlt : h.2 < e.2 := hmax h hh heq
      have he_t : e ∈ t := by
        rcases List.mem_cons.1 hmem with rfl | h' 
        · exact absurd rfl heq
        · exact h'
      have hpw := sortDesc_pairwise l
      rw [hsd] at hpw
      have hle : e.2 ≤ h.2 := (List.pairwise_cons.1 hpw).1 e he_t
      exact absurd (lt_of_le_of_lt hle hlt) (lt_irrefl _)

theorem enumFrom_length (l : List ℚ) : ∀ k, (enumFrom k l).length = l.length := by
  induction l with
  | nil => intro k; rfl
  | cons x xs ih => intro k; simp [enumFrom, ih]

theorem enumFrom_fst_lower (l : List ℚ) :
    ∀ k p, p ∈ enumFrom k l → k ≤ p.1 := by
  induction l with
  | nil => intro k p hp; cases hp
  | cons x xs ih =>
    intro k p hp
    rcases List.mem_cons.1 hp with rfl | hp'
    · exact le_refl _
    · exact (Nat.le_succ k).trans (ih (k + 1) p hp')

theorem enumFrom_fst_lt (l : List ℚ) :
    ∀ k p, p ∈ enumFrom k l → p.1 < k + l.length := by
  induction l with
  | nil => intro k p hp; cases hp
  | cons x xs ih =>
    intro k p hp
    rcases List.mem_cons.1 hp with rfl | hp'
    · simp
    · have := ih (k + 1) p hp'
      simp only [List.length_cons]
      omega

theorem enumFrom_fst_inj (l : List ℚ) :
    ∀ k p q, p ∈ enumFrom k l → q ∈ enumFrom k l → p.1 = q.1 → p = q := by
  induction l with
  | nil => intro k p q hp; cases hp
  | cons x xs ih =>
    intro k p q hp hq hfst
    rcases List.mem_cons.1 hp with rfl | hp' <;>
      rcases List.mem_cons.1 hq with rfl | hq'
    · rfl
    · exact absurd (hfst ▸ enumFrom_fst_lower xs (k + 1) q hq') (by simp)
    · exact absurd (hfst ▸ enumFrom_fst_lower xs (k + 1) p hp') (by simp)
    · exact ih (k + 1) p q hp' hq' hfst

theorem enumFrom_nodup (l : List ℚ) : ∀ k, (enumFrom k l).Nodup := by
  induction l with
  | nil => intro k; exact List.nodup_nil
  | cons x xs ih =>
    intro k
    refine List.nodup_cons.2 ⟨?_, ih (k + 1)⟩
    intro hmem
    have := enumFrom_fst_lower xs (k + 1) (k, x) hmem
    simp at this

theorem mem_enumFrom_getD (l : List ℚ) :
    ∀ k q, q < l.length → (k + q, l.getD q 0) ∈ enumFrom k l := by
  induction l with
  | nil => intro k q hq; cases hq
  | cons x xs ih =>
    intro k q hq
    cases q with
    | zero => simp [enumFrom]
    | succ q' =>
      have hmem := ih (k + 1) q' (by simpa using hq)
      have harith : k + (q' + 1) = (k + 1) + q' := by omega
      rw [enumFrom]
      refine List.mem_cons.2 (Or.inr ?_)
      simpa [harith] using hmem

theorem titleIndexFrom_lt (t : String) :
    ∀ (k : Nat) (ms : List Movie) (q : Nat),
      titleIndexFrom t k ms = some q → q < k + ms.length := by
  intro k ms
  induction ms generalizing k with
  | nil => intro q h; cases h
  | cons m ms ih =>
    intro q h
    rw [titleIndexFrom] at h
    split at h
    · injection h with h
      simp only [List.length_cons]
      omega
    · have := ih (k + 1) q h
      simp only [List.length_cons]
      omega

theorem titleIndex_lt (movies : List Movie) (t : String) (q : Nat)
    (h : titleIndex movies t = some q) : q < movies.length := by
  have := titleIndexFrom_lt t 0 movies q h
  omega

theorem get?_eq_some_getD {α : Type} (l : List α) (d : α) (n : Nat)
    (h : n < l.length) : l.get? n = some (l.getD n d) := by
  rw [List.get?_eq_getElem?, List.getD_eq_getElem?_getD]
  cases h' : l[n]? with
  | none => exact absurd (List.getElem?_eq_none_iff.1 h') (by omega)
  | some a => rfl

theorem buildRec_ok (movies : List Movie) (fp : Nat → String) :
    ∀ l : List (Nat × ℚ), (∀ p ∈ l, p.1 < movies.length) →
      buildRec movies fp l =
        .ok (l.map (fun p => (movies.getD p.1 defaultMovie).title),
             l.map (fun p => fp (movies.getD p.1 defaultMovie).id)) := by
  intro l
  induction l with
  | nil => intro _; rfl
  | cons p rest ih =>
    intro h
    rw [buildRec,
      get?_eq_some_getD movies defaultMovie p.1 (h p (List.mem_cons_self p rest)),
      ih (fun r hr => h r (List.mem_cons_of_mem p hr))]
    simp

theorem buildRec_ok_lengths (movies : List Movie) (fp : Nat → String) :
    ∀ (l : List (Nat × ℚ)) (ns ps : List String),
      buildRec movies fp l = .ok (ns, ps) →
      ns.length = l.length ∧ ps.length = l.length := by
  intro l
  induction l with
  | nil =>
    intro ns ps h
    rw [buildRec] at h
    simp only [Except.ok.injEq, Prod.mk.injEq] at h
    obtain ⟨h1, h2⟩ := h
    simp [← h1, ← h2]
  | cons p rest ih =>
    intro ns ps h
    rw [buildRec] at h
    cases hg : movies.get? p.1 with
    | none => rw [hg] at h; simp at h
    | some m =>
      rw [hg] at h
      cases hb : buildRec movies fp rest with
      | error e => rw [hb] at h; simp at h
      | ok pr =>
        obtain ⟨ns0, ps0⟩ := pr
        rw [hb] at h
        simp only [Except.ok.injEq, Prod.mk.injEq] at h
        obtain ⟨h1, h2⟩ := h
        obtain ⟨hl1, hl2⟩ := ih ns0 ps0 hb
        subst h1
        subst h2
        simp [hl1, hl2]

theorem buildRec_namesPart (movies : List Movie) (fp fp2 : Nat → String) :
    ∀ l : List (Nat × ℚ),
      namesPart (buildRec movies fp l) = namesPart (buildRec movies fp2 l) := by
  intro l
  induction l with
  | nil => rfl
  | cons p rest ih =>
    rw [buildRec, buildRec]
    cases hg : movies.get? p.1 with
    | none => rfl
    | some m =>
      cases h1 : buildRec movies fp rest with
      | error e =>
        cases h2 : buildRec movies fp2 rest with
        | error e2 =>
          rw [h1, h2] at ih
          simp only [namesPart, Except.map] at ih ⊢
          exact ih
        | ok pr =>
          rw [h1, h2] at ih
          simp [namesPart, Except.map] at ih
      | ok pr =>
        obtain ⟨ns, ps⟩ := pr
        cases h2 : buildRec movies fp2 rest with
        | error e2 =>
          rw [h1, h2] at ih
          simp [namesPart, Except.map] at ih
        | ok pr2 =>
          obtain ⟨ns2, ps2⟩ := pr2
          rw [h1, h2] at ih
          simp only [namesPart, Except.map, Except.ok.injEq] at ih ⊢
          simp [ih]

/-! ### Claim theorems -/

/-- Claim C1 (amended): `recommend` has its `top_n` hard-coded to 5 via the
slice `[1:6]`; for every query title present in the catalog, with a similarity
row of matching dimension whose self-similarity entry is a strict maximum of
the row, `recommend` succeeds, returns exactly `min 5 (catalog_size - 1)`
recommendations, and the query item's index never appears among the returned
items.  (Without the strict-maximum hypothesis the claim is false, see the
counterexample: the code removes the *first sorted entry*, not the query
index.) -/
theorem C1_count_and_self_exclusion (movies : List Movie) (sim : List (List ℚ))
    (fp : Nat → String) (t : String) (q : Nat) (row : List ℚ)
    (hfind : titleIndex movies t = some q)
    (hrow : sim.get? q = some row)
    (hlen : row.length = movies.length)
    (hmax : ∀ p ∈ enumerate row, p.1 ≠ q → p.2 < row.getD q 0) :
    recommend movies sim fp t =
      .ok ((topSlice row).map (fun p => (movies.getD p.1 defaultMovie).title),
           (topSlice row).map (fun p => fp (movies.getD p.1 defaultMovie).id)) ∧
    ((topSlice row).map (fun p => (movies.getD p.1 defaultMovie).title)).length =
      min 5 (movies.length - 1) ∧
    q ∉ (topSlice row).map Prod.fst := by
  have hqm : q < movies.length := titleIndex_lt movies t q hfind
  have hqr : q < row.length := by omega
  have he : (q, row.getD q 0) ∈ enumerate row := by
    have := mem_enumFrom_getD row 0 q hqr
    simpa [enumerate] using this
  have hmax' : ∀ p ∈ enumerate row, p ≠ (q, row.getD q 0) → p.2 < (q, row.getD q 0).2 := by
    intro p hp hne
    by_cases hfst : p.1 = q
    · exact absurd (enumFrom_fst_inj row 0 p (q, row.getD q 0) hp he hfst) hne
    · exact hmax p hp hfst
  obtain ⟨tl, htl⟩ := sortDesc_eq_cons_of_max (enumerate row) (q, row.getD q 0) he hmax'
  have htop : topSlice row = tl.take 5 := by
    rw [topSlice, distancesSorted, htl, List.drop_one, List.tail_cons]
  have hmem_enum : ∀ p ∈ topSlice row, p ∈ enumerate row := by
    intro p hp
    rw [htop] at hp
    have h1 : p ∈ tl := (List.take_sublist 5 tl).mem hp
    have h2 : p ∈ sortDesc (enumerate row) := by
      rw [htl]; exact List.mem_cons_of_mem _ h1
    exact (sortDesc_perm (enumerate row)).mem_iff.1 h2
  have hbound : ∀ p ∈ topSlice row, p.1 < movies.length := by
    intro p hp
    have := enumFrom_fst_lt row 0 p (hmem_enum p hp)
    omega
  have heq := buildRec_ok movies fp (topSlice row) hbound
  refine ⟨?_, ?_, ?_⟩
  · simp only [recommend, hfind, hrow]
    exact heq
  · rw [List.length_map, htop, List.length_take]
    have h1 : (sortDesc (enumerate row)).length = row.length := by
      rw [(sortDesc_perm (enumerate row)).length_eq]
      have := enumFrom_length row 0
      simpa [enumerate] using this
    rw [htl] at h1
    simp only [List.length_cons] at h1
    have : tl.length = movies.length - 1 := by omega
    rw [this]
  · intro hq_in
    obtain ⟨p, hp, hpq⟩ := List.mem_map.1 hq_in
    have hnodup : (sortDesc (enumerate row)).Nodup :=
      ((sortDesc_perm (enumerate row)).nodup_iff).2 (enumFrom_nodup row 0)
    rw [htl] at hnodup
    have hent : (q, row.getD q 0) ∉ tl := (List.nodup_cons.1 hnodup).1
    have hptl : p ∈ tl := by
      rw [htop] at hp
      exact (List.take_sublist 5 tl).mem hp
    have hpe : p = (q, row.getD q 0) :=
      enumFrom_fst_inj row 0 p (q, row.getD q 0) (hmem_enum p hp) he hpq
    rw [hpe] at hptl
    exact hent hptl

/-- Witness for C1 at the §8 catalog: all hypotheses hold concretely (query
"A" at index 0, row `row6` with strictly maximal self-similarity 1.0) and the
theorem's conclusion follows by applying it. -/
theorem C1_witness :
    (titleIndex movies6 "A" = some 0 ∧ sim6.get? 0 = some row6 ∧
     row6.length = movies6.length) ∧
    (recommend movies6 sim6 pf6 "A" =
      .ok ((topSlice row6).map (fun p => (movies6.getD p.1 defaultMovie).title),
           (topSlice row6).map (fun p => pf6 (movies6.getD p.1 defaultMovie).id)) ∧
    ((topSlice row6).map (fun p => (movies6.getD p.1 defaultMovie).title)).length =
      min 5 (movies6.length - 1) ∧
    0 ∉ (topSlice row6).map Prod.fst) :=
  ⟨⟨by decide, by decide, by decide⟩,
   C1_count_and_self_exclusion movies6 sim6 pf6 "A" 0 row6
     (by decide) (by decide) (by decide) (by decide)⟩

/-- Counterexample to C1 as stated: on `movies7`/`sim7` the query title "A"
(index 0, whose self-similarity 0.5 is not the row maximum) is itself among
the five returned recommendations, because the code drops the first *sorted*
entry instead of the query's entry. -/
theorem C1_counterexample :
    recommend movies7 sim7 pf6 "A" =
      .ok (["A", "C", "D", "E", "F"], ["P20", "P22", "P23", "P24", "P25"]) ∧
    "A" ∈ ["A", "C", "D", "E", "F"] ∧
    0 ∈ (topSlice (sim7.getD 0 [])).map Prod.fst := by
  refine ⟨by decide, by decide, by decide⟩

/-- Claim C2 (amended): on a title absent from the catalog,
`recommend_movies_final` (app3.py) catches the lookup `IndexError` before any
similarity-matrix access and returns the empty pair without raising, while
`recommend`/`recommend_movies` (app2.py/app.py) let the `IndexError` of
`.index[0]` propagate; no variant produces the spec's `NotFound` error
value. -/
theorem C2_unknown_title (movies : List Movie) (sim : List (List ℚ))
    (fp : Nat → String) (sched : List MovieInfo → List MovieInfo) (t : String)
    (h : titleIndex movies t = none) :
    recommend movies sim fp t = .error .indexError ∧
    recommend_movies_final movies sim fp sched t = .ok ([], []) := by
  constructor
  · simp [recommend, h]
  · simp [recommend_movies_final, h]

/-- Witness for C2 at a concrete unknown title. -/
theorem C2_witness :
    titleIndex movies6 "Zodiac" = none ∧
    (recommend movies6 sim6 pf6 "Zodiac" = .error .indexError ∧
     recommend_movies_final movies6 sim6 pf6 id "Zodiac" = .ok ([], [])) :=
  ⟨by decide, C2_unknown_title movies6 sim6 pf6 id "Zodiac" (by decide)⟩

/-- Counterexample to C2 as stated: the unknown-title failure of `recommend`
is an `IndexError` — an indexing fault from `.index[0]` — not a `NotFound`
error. -/
theorem C2_counterexample :
    recommend movies6 sim6 pf6 "Zootopia" = .error .indexError ∧
    recommend movies6 sim6 pf6 "Zootopia" ≠ .error .notFound := by
  refine ⟨by decide, by decide⟩

/-- Claim C6: the spec's §8 sort scenario.  For catalog `[A,B,C,D,E,F]` and
matrix row for A equal to `[1.0, .9, .2, .9, .5, .1]`, `recommend "A"` (top_n
fixed at 5) returns `[B, D, E, C, F]`: descending by score with the .9 tie
between B (index 1) and D (index 3) broken towards the lower index. -/
theorem C6_sort_scenario :
    recommend movies6 sim6 pf6 "A" =
      .ok (["B", "D", "E", "C", "F"], ["P11", "P13", "P14", "P12", "P15"]) := by
  decide

/-- The score constants written as the spec's decimal fractions. -/
theorem sc_eq_fractions :
    sc01 = 1/10 ∧ sc02 = 2/10 ∧ sc03 = 3/10 ∧ sc04 = 4/10 ∧
    sc05 = 5/10 ∧ sc09 = 9/10 := by
  refine ⟨?_, ?_, ?_, ?_, ?_, ?_⟩ <;>
    simp only [sc01, sc02, sc03, sc04, sc05, sc09] <;>
    rw [Rat.mk'_eq_divInt] <;> norm_num [Rat.divInt_eq_div]

/-- Claim C9 (amended): the ranking part of `recommend` is pure — the error
outcome and the returned titles are identical under any two poster-fetch
functions, so two calls with the same loaded state return the same
recommendations — but the call itself is not free of network I/O: whenever it
succeeds it performs exactly one poster HTTP request per returned title. -/
theorem C9_purity_and_network (movies : List Movie) (sim : List (List ℚ))
    (fp fp2 : Nat → String) (t : String) :
    namesPart (recommend movies sim fp t) = namesPart (recommend movies sim fp2 t) ∧
    (∀ ns ps, recommend movies sim fp t = .ok (ns, ps) →
      recommendNetworkCalls movies sim t = ns.length) := by
  constructor
  · cases h1 : titleIndex movies t with
    | none => simp [recommend, h1]
    | some index =>
      cases h2 : sim.get? index with
      | none => simp only [recommend, h1, h2]
      | some row =>
        simp only [recommend, h1, h2]
        exact buildRec_namesPart movies fp fp2 (topSlice row)
  · intro ns ps h
    cases h1 : titleIndex movies t with
    | none => simp only [recommend, h1] at h; simp at h
    | some index =>
      cases h2 : sim.get? index with
      | none => simp only [recommend, h1, h2] at h; simp at h
      | some row =>
        simp only [recommend, h1, h2] at h
        simp only [recommendNetworkCalls, h1, h2]
        exact (buildRec_ok_lengths movies fp (topSlice row) ns ps h).1.symm

/-- Witness for C9: applying the theorem at the §8 catalog shows the network
call count of a successful `recommend` equals the number of returned titles
(5), in particular it is not zero. -/
theorem C9_witness :
    recommendNetworkCalls movies6 sim6 "A" = (["B", "D", "E", "C", "F"] : List String).length :=
  (C9_purity_and_network movies6 sim6 pf6 pf6 "A").2
    ["B", "D", "E", "C", "F"] ["P11", "P13", "P14", "P12", "P15"] (by decide)

/-- Counterexample to C9 as stated ("no network I/O"): the successful call on
the §8 catalog performs five poster HTTP requests. -/
theorem C9_counterexample :
    recommendNetworkCalls movies6 sim6 "A" = 5 ∧
    recommendNetworkCalls movies6 sim6 "A" ≠ 0 := by
  refine ⟨by decide, by decide⟩

theorem foldl_reconStep_length (pm tm : Nat → Option String) :
    ∀ (ys : List MovieInfo) (init : List (Option String) × List (Option String)),
      (ys.foldl (reconStep pm tm) init).1.length = init.1.length ∧
      (ys.foldl (reconStep pm tm) init).2.length = init.2.length
  | [], init => ⟨rfl, rfl⟩
  | y :: ys, init => by
    rw [List.foldl_cons]
    have h := foldl_reconStep_length pm tm ys (reconStep pm tm init y)
    simpa [reconStep, List.length_set] using h

theorem reconstructLists_length (toFetch : List MovieInfo)
    (pm tm : Nat → Option String) :
    (reconstructLists toFetch pm tm).1.length = toFetch.length ∧
    (reconstructLists toFetch pm tm).2.length = toFetch.length := by
  rw [reconstructLists]
  have h := foldl_reconStep_length pm tm toFetch
    (List.replicate toFetch.length none, List.replicate toFetch.length none)
  simpa [List.length_replicate] using h

theorem fetch_posters_length (f : Nat → String)
    (sched : List MovieInfo → List MovieInfo) (toFetch : List MovieInfo) :
    (fetch_posters f sched toFetch).1.length = toFetch.length ∧
    (fetch_posters f sched toFetch).2.length = toFetch.length := by
  rw [fetch_posters]
  exact reconstructLists_length toFetch _ _

/-- Claim C10: every recommendation call returns a pair of lists of equal
length — the i-th poster always belongs to the i-th title.  This holds for
`recommend`/`recommend_movies` (one title and one poster appended per loop
iteration) and for `recommend_movies_final` (both output lists are allocated
at `num_recommendations` and the reconstruction preserves length). -/
theorem C10_equal_lengths (movies : List Movie) (sim : List (List ℚ))
    (fp : Nat → String) (sched : List MovieInfo → List MovieInfo) (t : String) :
    (∀ ns ps, recommend movies sim fp t = .ok (ns, ps) → ns.length = ps.length) ∧
    (∀ pr, recommend_movies_final movies sim fp sched t = .ok pr →
      pr.1.length = pr.2.length) := by
  constructor
  · intro ns ps h
    cases h1 : titleIndex movies t with
    | none => simp only [recommend, h1] at h; simp at h
    | some index =>
      cases h2 : sim.get? index with
      | none => simp only [recommend, h1, h2] at h; simp at h
      | some row =>
        simp only [recommend, h1, h2] at h
        obtain ⟨hl1, hl2⟩ := buildRec_ok_lengths movies fp (topSlice row) ns ps h
        rw [hl1, hl2]
  · intro pr h
    cases h1 : titleIndex movies t with
    | none =>
      simp only [recommend_movies_final, h1, Except.ok.injEq] at h
      rw [← h]
    | some index =>
      cases h2 : sim.get? index with
      | none => simp only [recommend_movies_final, h1, h2] at h; simp at h
      | some row =>
        simp only [recommend_movies_final, h1, h2] at h
        split at h
        · simp only [Except.ok.injEq] at h
          rw [← h]
        · simp only [Except.ok.injEq] at h
          rw [← h]
          obtain ⟨hl1, hl2⟩ := fetch_posters_length fp sched
            (buildToFetch movies (topSlice row))
          rw [hl1, hl2]

/-- Witness for C10 at the §8 catalog: both variants return five titles and
five posters. -/
theorem C10_witness :
    (["B", "D", "E", "C", "F"] : List String).length =
      (["P11", "P13", "P14", "P12", "P15"] : List String).length ∧
    ([some "B", some "D", some "E", some "C", some "F"] : List (Option String)).length =
      ([some "P11", some "P13", some "P14", some "P12", some "P15"] :
        List (Option String)).length :=
  ⟨(C10_equal_lengths movies6 sim6 pf6 id "A").1
     ["B", "D", "E", "C", "F"] ["P11", "P13", "P14", "P12", "P15"] (by decide),
   (C10_equal_lengths movies6 sim6 pf6 id "A").2
     ([some "B", some "D", some "E", some "C", some "F"],
      [some "P11", some "P13", some "P14", some "P12", some "P15"]) (by decide)⟩

theorem withOrdersFrom_length (xs : List (Nat × String)) :
    ∀ k, (withOrdersFrom k xs).length = xs.length := by
  induction xs with
  | nil => intro k; rfl
  | cons x xs ih => intro k; simp [withOrdersFrom, ih]

theorem withOrdersFrom_map_id (xs : List (Nat × String)) :
    ∀ k, (withOrdersFrom k xs).map (fun i => i.tmdb_id) = xs.map Prod.fst := by
  induction xs with
  | nil => intro k; rfl
  | cons x xs ih => intro k; simp [withOrdersFrom, ih]

theorem foldl_collectStep_fst (f : Nat → String) :
    ∀ (l : List MovieInfo)
      (init : (Nat → Option String) × (Nat → Option String)) (k : Nat),
      (l.foldl (collectStep f) init).1 k =
        if k ∈ l.map (fun i => i.tmdb_id) then some (f k) else init.1 k
  | [], init, k => by simp
  | i :: l, init, k => by
    rw [List.foldl_cons, foldl_collectStep_fst f l (collectStep f init i) k]
    by_cases h1 : k ∈ l.map (fun j => j.tmdb_id)
    · simp [h1]
    · by_cases h2 : k = i.tmdb_id
      · simp [h1, h2, collectStep, updateMap]
      · simp [h1, h2, collectStep, updateMap]

theorem collectMaps_fst (f : Nat → String) (l : List MovieInfo) (k : Nat)
    (h : k ∈ l.map (fun i => i.tmdb_id)) :
    (collectMaps f l).1 k = some (f k) := by
  rw [collectMaps, foldl_collectStep_fst]
  simp [h]

theorem set_append_length {α : Type} (l1 l2 : List α) (a : α) :
    (l1 ++ l2).set l1.length a = l1 ++ l2.set 0 a := by
  induction l1 with
  | nil => rfl
  | cons x l1 ih => simp [List.set, ih]

theorem setAll_replicate :
    ∀ (vs : List (Option String)) (pre : List (Option String)),
      setAll (pre ++ List.replicate vs.length none) pre.length vs = pre ++ vs
  | [], pre => by simp [setAll]
  | v :: vs, pre => by
    rw [setAll]
    have hset : (pre ++ List.replicate (v :: vs).length none).set pre.length v =
        (pre ++ [v]) ++ List.replicate vs.length none := by
      rw [List.length_cons, List.replicate_succ, set_append_length]
      simp [List.set]
    rw [hset]
    have hlen : pre.length + 1 = (pre ++ [v]).length := by simp
    rw [hlen, setAll_replicate vs (pre ++ [v])]
    simp

theorem foldl_reconStep_withOrders (pm tm : Nat → Option String) :
    ∀ (xs : List (Nat × String)) (k : Nat)
      (acc : List (Option String) × List (Option String)),
      (withOrdersFrom k xs).foldl (reconStep pm tm) acc =
        (setAll acc.1 k (xs.map (fun x => some ((tm x.1).getD "Title Not Found"))),
         setAll acc.2 k (xs.map (fun x => some ((pm x.1).getD poster_not_found))))
  | [], k, acc => by simp [withOrdersFrom, setAll]
  | x :: xs, k, acc => by
    rw [withOrdersFrom, List.foldl_cons,
      foldl_reconStep_withOrders pm tm xs (k + 1) (reconStep pm tm acc ⟨x.1, x.2, k⟩)]
    simp [reconStep, setAll]

/-- Claim C3: for every input sequence of external ids, every resolution
function and every completion order of the futures (any permutation of the
submitted batch), the poster outputs of the batch have exactly the input's
length and order — slot i holds the poster resolved for the i-th input id. -/
theorem C3_order_preserved (f : Nat → String)
    (sched : List MovieInfo → List MovieInfo) (xs : List (Nat × String))
    (h : List.Perm (sched (withOrders xs)) (withOrders xs)) :
    (fetch_posters f sched (withOrders xs)).2 = xs.map (fun x => some (f x.1)) ∧
    (fetch_posters f sched (withOrders xs)).2.length = xs.length ∧
    (fetch_posters f sched (withOrders xs)).1.length = xs.length := by
  have hmain : (fetch_posters f sched (withOrders xs)).2 =
      xs.map (fun x => some (f x.1)) := by
    rw [fetch_posters, reconstructLists, withOrders, foldl_reconStep_withOrders]
    have hlen : (withOrdersFrom 0 xs).length =
        (xs.map (fun x => some
          (((collectMaps f (sched (withOrdersFrom 0 xs))).1 x.1).getD
            poster_not_found))).length := by
      rw [withOrdersFrom_length, List.length_map]
    rw [hlen]
    have hrepl := setAll_replicate
      (xs.map (fun x => some
        (((collectMaps f (sched (withOrdersFrom 0 xs))).1 x.1).getD
          poster_not_found))) []
    simp only [List.nil_append, List.length_nil] at hrepl
    rw [hrepl]
    refine List.map_congr_left ?_
    intro x hx
    have hid : x.1 ∈ (withOrdersFrom 0 xs).map (fun i => i.tmdb_id) := by
      rw [withOrdersFrom_map_id]
      exact List.mem_map.2 ⟨x, hx, rfl⟩
    have hid2 : x.1 ∈ (sched (withOrdersFrom 0 xs)).map (fun i => i.tmdb_id) :=
      ((h.map (fun i => i.tmdb_id)).mem_iff).2 hid
    rw [collectMaps_fst f (sched (withOrdersFrom 0 xs)) x.1 hid2]
    rfl
  refine ⟨hmain, ?_, ?_⟩
  · rw [hmain, List.length_map]
  · rw [(fetch_posters_length f sched (withOrders xs)).1, withOrders,
      withOrdersFrom_length]

/-- Witness for C3: a three-element batch whose futures complete in reverse
order still yields posters in input order. -/
theorem C3_witness :
    List.Perm (List.reverse (withOrders [(42, "X"), (7, "Y"), (9, "Z")]))
      (withOrders [(42, "X"), (7, "Y"), (9, "Z")]) ∧
    (fetch_posters pf6 List.reverse (withOrders [(42, "X"), (7, "Y"), (9, "Z")])).2 =
      [(42, "X"), (7, "Y"), (9, "Z")].map (fun x => some (pf6 x.1)) :=
  ⟨List.reverse_perm _,
   (C3_order_preserved pf6 List.reverse [(42, "X"), (7, "Y"), (9, "Z")]
     (List.reverse_perm _)).1⟩

/-- Claim C4: every failing fetch outcome (timeout, HTTP error status,
connection/request error, malformed JSON body, or any other exception) is
absorbed by an `except` arm and resolved to the error placeholder URL — never
propagated — in both `fetch_poster_robust_cached` (app3.py) and `fetch_poster`
(app.py); and the batch always returns full-length title and poster lists, so
a batch request never fails partially. -/
theorem C4_never_propagates :
    (∀ o : FetchOutcome, isFailureOutcome o = true →
      fetch_poster_robust_cached o = placeholder_error ∧
      fetch_poster o = "https://via.placeholder.com/500x750.png?text=Error") ∧
    (∀ (f : Nat → String) (sched : List MovieInfo → List MovieInfo)
      (xs : List (Nat × String)),
      (fetch_posters f sched (withOrders xs)).1.length = xs.length ∧
      (fetch_posters f sched (withOrders xs)).2.length = xs.length) := by
  constructor
  · intro o ho
    cases o with
    | ok pp => simp [isFailureOutcome] at ho
    | timeout => exact ⟨rfl, rfl⟩
    | httpError st => exact ⟨rfl, rfl⟩
    | requestError => exact ⟨rfl, rfl⟩
    | jsonError => exact ⟨rfl, rfl⟩
    | otherError => exact ⟨rfl, rfl⟩
  · intro f sched xs
    have h := fetch_posters_length f sched (withOrders xs)
    rw [withOrders, withOrdersFrom_length] at h
    exact h

/-- Witness for C4 at the timeout outcome. -/
theorem C4_witness :
    isFailureOutcome FetchOutcome.timeout = true ∧
    fetch_poster_robust_cached FetchOutcome.timeout = placeholder_error :=
  ⟨rfl, (C4_never_propagates.1 FetchOutcome.timeout rfl).1⟩

/-- Counterexample to C5 as stated: against the always-503 endpoint the
configured `Retry(total=3)` issues 4 requests (the initial attempt plus three
retries), not 3. -/
theorem C5_counterexample : fetchAttempts503 ≠ 3 := by decide

/-- Claim C5 (amended): against an endpoint that always returns status 503, a
poster fetch through the configured retry adapter makes exactly 4 total
attempts — the first plus `total=3` retries — sleeping the exponentially
increasing backoff delays 1s, 2s, 4s between attempts, and then returns the
error placeholder URL instead of raising (the `MaxRetryError` surfaces as a
requests `RetryError`, caught by the `RequestException` arm). -/
theorem C5_retry_budget :
    fetchAttempts503 = 4 ∧
    fetchBackoffs503 = [1, 2, 4] ∧
    fetch_poster_net server503 = placeholder_error := by
  refine ⟨by decide, by decide, by decide⟩

/-- Claim C7: when the response carries a present, non-empty `poster_path`,
both fetch variants return the fixed image-host prefix concatenated with the
poster path; concretely `poster_path = "/x.jpg"` yields
`image_base_url ++ "/x.jpg"`. -/
theorem C7_url_concatenation (p : String) (h : p ≠ "") :
    fetch_poster_robust_cached (.ok (some p)) = image_base_url ++ p ∧
    fetch_poster (.ok (some p)) = image_base_url ++ p := by
  constructor
  · simp [fetch_poster_robust_cached, truthy, h]
  · simp [fetch_poster, truthy, h]

/-- Witness for C7 at the spec's `"/x.jpg"` scenario. -/
theorem C7_witness :
    ("/x.jpg" : String) ≠ "" ∧
    fetch_poster_robust_cached (.ok (some "/x.jpg")) =
      "https://image.tmdb.org/t/p/w500//x.jpg" :=
  ⟨by decide, ((C7_url_concatenation "/x.jpg" (by decide)).1).trans (by decide)⟩

/-- Claim C8: a second fetch for the same external id within the 6-hour TTL
window returns the same URL without a second network call, and a fetch after
TTL expiry performs a fresh network call.  (The cache itself is modelled from
the spec, since `st.cache_data` is framework code outside this repository.) -/
theorem cachedFetch_entry_some (f : Nat → String) (now key : Nat) (url : String)
    (tt : Nat) (s : CacheState) (h : s.entry key = some (url, tt)) :
    cachedFetch f now key s =
      if now - tt < cacheTTL then (url, s) else cacheMiss f now key s := by
  rw [cachedFetch, h]

theorem C8_cache_ttl (f : Nat → String) (key now1 now2 : Nat) (s0 : CacheState)
    (h0 : s0.entry key = none) :
    (now2 - now1 < cacheTTL →
      (cachedFetch f now2 key (cachedFetch f now1 key s0).2).1 =
        (cachedFetch f now1 key s0).1 ∧
      (cachedFetch f now2 key (cachedFetch f now1 key s0).2).2.networkCalls =
        (cachedFetch f now1 key s0).2.networkCalls) ∧
    (cacheTTL ≤ now2 - now1 →
      (cachedFetch f now2 key (cachedFetch f now1 key s0).2).2.networkCalls =
        (cachedFetch f now1 key s0).2.networkCalls + 1) := by
  have hfirst : cachedFetch f now1 key s0 =
      (f key, ⟨fun j => if j = key then some (f key, now1) else s0.entry j,
        s0.networkCalls + 1⟩) := by
    rw [cachedFetch, h0, cacheMiss]
  rw [hfirst]
  have hentry : (⟨fun j => if j = key then some (f key, now1) else s0.entry j,
      s0.networkCalls + 1⟩ : CacheState).entry key = some (f key, now1) := by simp
  rw [cachedFetch_entry_some f now2 key (f key) now1 _ hentry]
  constructor
  · intro hlt
    rw [if_pos hlt]
    exact ⟨rfl, rfl⟩
  · intro hge
    rw [if_neg (not_lt.2 hge), cacheMiss]

/-- Witness for C8: a fresh cache, a fetch at t=0, a hit at t=60 (same URL, no
new network call), and a refetch at t=30000 > 6h (one more network call). -/
theorem C8_witness :
    ((cachedFetch (fun _ => "u") 60 7 (cachedFetch (fun _ => "u") 0 7 emptyCache).2).1 =
       (cachedFetch (fun _ => "u") 0 7 emptyCache).1 ∧
     (cachedFetch (fun _ => "u") 60 7 (cachedFetch (fun _ => "u") 0 7 emptyCache).2).2.networkCalls =
       (cachedFetch (fun _ => "u") 0 7 emptyCache).2.networkCalls) ∧
    (cachedFetch (fun _ => "u") 30000 7 (cachedFetch (fun _ => "u") 0 7 emptyCache).2).2.networkCalls =
      (cachedFetch (fun _ => "u") 0 7 emptyCache).2.networkCalls + 1 :=
  ⟨(C8_cache_ttl (fun _ => "u") 7 0 60 emptyCache rfl).1 (by decide),
   (C8_cache_ttl (fun _ => "u") 7 0 30000 emptyCache rfl).2 (by decide)⟩
